import Mathlib

/-!
Shallow embedding of `src/wrapped.rs` from the pwasm-std crate: the
descriptor record, the zero-copy input view (`WrappedArgs`), the
single-use output sink (`WrappedResult`) and the boundary entry
function `parse_args`.

Guest memory is modelled abstractly: `Mem.byteAt` gives the byte stored
at each linear-memory address, and `Mem.descAt` gives the descriptor
record readable at a given address, abstracting the four repr(C) field
loads. Borrowed slices are modelled as (pointer, length) pairs into
that memory, so that zero-copy and pointer-identity facts are
expressible; reading a slice lists exactly the addresses it
dereferences. The host hand-off primitive never returns, so guest
computations are values of `GuestComp`: either a normal result or a
terminal hand-off carrying the returned bytes.
-/

/-- Descriptor record, from `struct Descriptor` (wrapped.rs lines 4 to
10): four address-width fields in fixed order, modelled as `Nat`. -/
structure Descriptor where
  args_ptr : Nat
  args_len : Nat
  result_ptr : Nat
  result_len : Nat
deriving DecidableEq, Repr

/-- Guest linear memory together with the descriptor records visible in
it. `byteAt a` is the byte stored at address `a`; `descAt a` is the
descriptor record obtained when address `a` is cast to a descriptor
pointer and its fields are loaded. -/
structure Mem where
  byteAt : Nat → Nat
  descAt : Nat → Descriptor

/-- Borrowed byte slice: a pointer and a length into guest memory. No
bytes are stored in the slice value itself, so producing one copies
nothing. -/
structure Slice where
  ptr : Nat
  len : Nat
deriving DecidableEq, Repr

/-- Bytes obtained when a slice is actually read from memory. -/
def Slice.read (s : Slice) (m : Mem) : List Nat :=
  (List.range s.len).map fun i => m.byteAt (s.ptr + i)

/-- Addresses dereferenced when the slice is read: the `len` addresses
starting at `ptr`; none when `len = 0`. -/
def Slice.readAddrs (s : Slice) : List Nat :=
  (List.range s.len).map fun i => s.ptr + i

/-- Byte content of the memory region of `len` bytes starting at `ptr`:
the source region that a descriptor describes. -/
def region (m : Mem) (ptr len : Nat) : List Nat :=
  (List.range len).map fun i => m.byteAt (ptr + i)

/-- Rust empty-slice literal `&[]` from wrapped.rs line 49: the
canonical empty slice. Its pointer is the dangling non-null sentinel
used for empty slices and is never dereferenced since its length is
zero. -/
def emptySlice : Slice := { ptr := 1, len := 0 }

/-- Input view, from `pub struct WrappedArgs` (wrapped.rs lines 37 to
39): it holds only the raw descriptor address, with no cached pointer,
length or bytes. -/
structure WrappedArgs where
  desc : Nat
deriving DecidableEq, Repr

/-- Deref impl for `WrappedArgs` (wrapped.rs lines 41 to 55): load
`args_ptr` and `args_len` from the descriptor, return `&[]` when the
length is zero (creating a slice from a possibly null pointer is UB),
otherwise the slice assembled from exactly that pointer and length. -/
def WrappedArgs.deref (w : WrappedArgs) (m : Mem) : Slice :=
  let ptr := (m.descAt w.desc).args_ptr
  let len := (m.descAt w.desc).args_len
  if len = 0 then
    emptySlice
  else
    { ptr := ptr, len := len }

/-- AsRef impl for `WrappedArgs` (wrapped.rs lines 57 to 61): the body
is the reborrow of self, that is, exactly the Deref impl. -/
def WrappedArgs.as_ref (w : WrappedArgs) (m : Mem) : Slice :=
  w.deref m

/-- Outcome of running guest code that may invoke the non-returning
host hand-off. `pure a` means the code finished normally with value
`a`; `terminated bs` means the hand-off primitive was reached,
execution ended and the bytes `bs` were handed to the host. -/
inductive GuestComp (α : Type) where
  | pure (a : α)
  | terminated (bytes : List Nat)
deriving DecidableEq, Repr

/-- Sequencing of guest code: after a terminal hand-off the
continuation never runs. -/
def GuestComp.bind {α β : Type} : GuestComp α → (α → GuestComp β) → GuestComp β
  | .pure a, k => k a
  | .terminated bs, _ => .terminated bs

namespace ext

/-- Modelled from the spec: the host hand-off primitive (the external
function named in wrapped.rs line 90, whose definition lives outside
src/). Spec section 6: given the bytes, it ends execution surfacing
them as the call result and never returns control, hence it can stand
at any result type. -/
def return_ {α : Type} (bytes : List Nat) : GuestComp α :=
  GuestComp.terminated bytes

end ext

/-- Output sink, from `pub struct WrappedResult` (wrapped.rs line 66):
a unit struct with no fields, in particular with no runtime
already-used flag. -/
structure WrappedResult where
deriving DecidableEq, Repr

/-- Method `done` of `WrappedResult` (wrapped.rs lines 88 to 92):
consumes the sink (self is taken by value), converts the argument to a
byte slice via its AsRef impl (modelled by the function `asRef`), and
calls the host hand-off with exactly those bytes; control cannot
continue past that call, reflected in the result standing at any `α`. -/
def WrappedResult.done {α T : Type} (r : WrappedResult) (asRef : T → List Nat)
    (val : T) : GuestComp α :=
  let result := asRef val
  ext.return_ result

/-- Boundary entry function `parse_args` (wrapped.rs lines 112 to 117):
cast the raw address to a descriptor pointer and build the pair of
capabilities. The body performs no load, no store and no validation. -/
def parse_args (ptr : Nat) : WrappedArgs × WrappedResult :=
  let desc := ptr
  let args : WrappedArgs := { desc := desc }
  let result : WrappedResult := {}
  (args, result)

/-- State-passing form of `parse_args`: pairs the result with the guest
memory after the call. The source body contains no store, so memory is
returned unchanged. -/
def parse_argsT (m : Mem) (p : Nat) : (WrappedArgs × WrappedResult) × Mem :=
  (parse_args p, m)

/-- State-passing form of the Deref impl: the body only loads
descriptor fields, so memory is returned unchanged. -/
def derefT (m : Mem) (w : WrappedArgs) : Slice × Mem :=
  (w.deref m, m)

/-- State-passing form of reading the bytes of a slice: loads only, so
memory is returned unchanged. -/
def readT (m : Mem) (s : Slice) : List Nat × Mem :=
  (s.read m, m)

/-- State-passing form of `done`: the body performs no store before the
hand-off. -/
def doneT {α T : Type} (m : Mem) (r : WrappedResult) (asRef : T → List Nat)
    (val : T) : GuestComp α × Mem :=
  (r.done asRef val, m)

/-- Output path of a call, as in the crate doc example (wrapped.rs
lines 104 to 109): parse the descriptor address, then finish with the
bytes `v`. The memory argument makes the whole call state available,
including the result fields of the descriptor at `p`. -/
def outputPath {α : Type} (m : Mem) (p : Nat) (v : List Nat) : GuestComp α :=
  let parsed := (parse_argsT m p).1
  parsed.2.done (fun l : List Nat => l) v

/-- Concrete memory whose descriptor at every address has a null
`args_ptr` and zero `args_len`. -/
def memEmptyNull : Mem :=
  { byteAt := fun i => i % 256
    descAt := fun _ => { args_ptr := 0, args_len := 0, result_ptr := 0, result_len := 0 } }

/-- Concrete memory: bytes follow the identity pattern and the
descriptor at every address describes the four-byte region at 16. -/
def memFour : Mem :=
  { byteAt := fun i => i % 256
    descAt := fun _ => { args_ptr := 16, args_len := 4, result_ptr := 0, result_len := 0 } }

/-- Concrete memory with different descriptor contents than `memFour`:
a two-byte region at 32, bytes shifted by one. -/
def memTwo : Mem :=
  { byteAt := fun i => (i + 1) % 256
    descAt := fun _ => { args_ptr := 32, args_len := 2, result_ptr := 0, result_len := 0 } }

/-- Concrete memory agreeing with `memResB` on the argument fields of
every descriptor and differing only in the result fields. -/
def memResA : Mem :=
  { byteAt := fun i => i % 256
    descAt := fun _ => { args_ptr := 16, args_len := 4, result_ptr := 64, result_len := 8 } }

/-- Concrete memory agreeing with `memResA` on the argument fields of
every descriptor and differing only in the result fields. -/
def memResB : Mem :=
  { byteAt := fun i => i % 256
    descAt := fun _ => { args_ptr := 16, args_len := 4, result_ptr := 128, result_len := 32 } }

/-- Claim C1: when `args_len` is zero, the Deref impl of `WrappedArgs`
returns the canonical empty slice whatever the value of `args_ptr`
(null included), its byte sequence is empty, and no address is
dereferenced to produce or read it. -/
theorem wrappedArgs_deref_zero_len_empty (m : Mem) (w : WrappedArgs)
    (h : (m.descAt w.desc).args_len = 0) :
    w.deref m = emptySlice ∧ (w.deref m).read m = [] ∧
      (w.deref m).readAddrs = [] := by
  have hd : w.deref m = emptySlice := by
    simp [WrappedArgs.deref, h]
  refine ⟨hd, ?_, ?_⟩ <;> simp [hd, emptySlice, Slice.read, Slice.readAddrs]

theorem wrappedArgs_deref_zero_len_empty_w :
    (memEmptyNull.descAt 7).args_len = 0 ∧
      ((WrappedArgs.mk 7).deref memEmptyNull = emptySlice ∧
        ((WrappedArgs.mk 7).deref memEmptyNull).read memEmptyNull = [] ∧
        ((WrappedArgs.mk 7).deref memEmptyNull).readAddrs = []) :=
  ⟨rfl, wrappedArgs_deref_zero_len_empty memEmptyNull (WrappedArgs.mk 7) rfl⟩

/-- Claim C3: when `args_len` is nonzero the Deref impl returns the
slice whose pointer is exactly `args_ptr` and whose length is exactly
`args_len` (pointer identity into the source region, hence zero copy),
and reading it yields exactly the bytes of that region. -/
theorem wrappedArgs_deref_nonzero_region (m : Mem) (w : WrappedArgs)
    (h : (m.descAt w.desc).args_len ≠ 0) :
    (w.deref m).ptr = (m.descAt w.desc).args_ptr ∧
      (w.deref m).len = (m.descAt w.desc).args_len ∧
      (w.deref m).read m
        = region m (m.descAt w.desc).args_ptr (m.descAt w.desc).args_len := by
  refine ⟨?_, ?_, ?_⟩ <;> simp [WrappedArgs.deref, h, Slice.read, region]

theorem wrappedArgs_deref_nonzero_region_w :
    (memFour.descAt 3).args_len ≠ 0 ∧
      (((WrappedArgs.mk 3).deref memFour).ptr = (memFour.descAt 3).args_ptr ∧
        ((WrappedArgs.mk 3).deref memFour).len = (memFour.descAt 3).args_len ∧
        ((WrappedArgs.mk 3).deref memFour).read memFour
          = region memFour (memFour.descAt 3).args_ptr (memFour.descAt 3).args_len) :=
  ⟨by decide, wrappedArgs_deref_nonzero_region memFour (WrappedArgs.mk 3) (by decide)⟩

/-- Claim C2: `done` hands the host hand-off primitive exactly the
bytes of its argument, unmodified and in order, and no continuation
sequenced after the call ever executes. -/
theorem done_exact_bytes_no_continuation {α β T : Type} (r : WrappedResult)
    (asRef : T → List Nat) (val : T) (k : α → GuestComp β) :
    r.done (α := α) asRef val = ext.return_ (asRef val) ∧
      GuestComp.bind (r.done asRef val) k = GuestComp.terminated (asRef val) :=
  ⟨rfl, rfl⟩

/-- Claim C4: `done` never returns control: its outcome is never a
normal `pure` result, neither by itself nor after sequencing with any
continuation, so there is no post-state in which the caller resumes. -/
theorem done_never_returns {α T : Type} (r : WrappedResult)
    (asRef : T → List Nat) (val : T) :
    (∀ a : α, r.done asRef val ≠ GuestComp.pure a) ∧
      ∀ (β : Type) (k : α → GuestComp β) (b : β),
        GuestComp.bind (r.done asRef val) k ≠ GuestComp.pure b := by
  constructor
  · intro a h
    exact GuestComp.noConfusion h
  · intro β k b h
    exact GuestComp.noConfusion h

/-- Claim C5: the output sink carries no runtime flag (it has no
fields, so all its values are equal) and a second `done` sequenced
after a first `done` is unreachable: the composite behaves exactly as
the first call alone. -/
theorem wrappedResult_single_use {α T T' : Type} (r r' : WrappedResult)
    (aR : T → List Nat) (v : T) (aR' : T' → List Nat) (v' : T') :
    (∀ s s' : WrappedResult, s = s') ∧
      GuestComp.bind (r.done aR v) (fun _ : α => r'.done aR' v')
        = r.done (α := α) aR v := by
  constructor
  · intro s s'
    cases s
    cases s'
    rfl
  · rfl

/-- Claim C6: each evaluation of the Deref impl re-derives pointer and
length from the descriptor record as it stands at that call: two reads
with different descriptor contents in between each reflect their own
call-time contents. -/
theorem wrappedArgs_deref_rederives (m₁ m₂ : Mem) (w : WrappedArgs)
    (h₁ : (m₁.descAt w.desc).args_len ≠ 0)
    (h₂ : (m₂.descAt w.desc).args_len ≠ 0) :
    ((w.deref m₁).ptr = (m₁.descAt w.desc).args_ptr ∧
        (w.deref m₁).len = (m₁.descAt w.desc).args_len) ∧
      ((w.deref m₂).ptr = (m₂.descAt w.desc).args_ptr ∧
        (w.deref m₂).len = (m₂.descAt w.desc).args_len) := by
  constructor <;> constructor <;> simp [WrappedArgs.deref, h₁, h₂]

theorem wrappedArgs_deref_rederives_w :
    (memFour.descAt 3).args_len ≠ 0 ∧ (memTwo.descAt 3).args_len ≠ 0 ∧
      ((((WrappedArgs.mk 3).deref memFour).ptr = (memFour.descAt 3).args_ptr ∧
          ((WrappedArgs.mk 3).deref memFour).len = (memFour.descAt 3).args_len) ∧
        (((WrappedArgs.mk 3).deref memTwo).ptr = (memTwo.descAt 3).args_ptr ∧
          ((WrappedArgs.mk 3).deref memTwo).len = (memTwo.descAt 3).args_len)) :=
  ⟨by decide, by decide,
    wrappedArgs_deref_rederives memFour memTwo (WrappedArgs.mk 3)
      (by decide) (by decide)⟩

/-- Claim C7: the output path never consults the result fields of the
descriptor: with the argument fields equal, any two memories whose
descriptors differ only in `result_ptr` and `result_len` produce the
identical hand-off for the same bytes. -/
theorem outputPath_ignores_result_fields {α : Type} (m₁ m₂ : Mem) (p : Nat)
    (v : List Nat)
    (hap : (m₁.descAt p).args_ptr = (m₂.descAt p).args_ptr)
    (hal : (m₁.descAt p).args_len = (m₂.descAt p).args_len) :
    outputPath (α := α) m₁ p v = outputPath m₂ p v := rfl

theorem outputPath_ignores_result_fields_w :
    (memResA.descAt 5).args_ptr = (memResB.descAt 5).args_ptr ∧
      (memResA.descAt 5).args_len = (memResB.descAt 5).args_len ∧
      outputPath (α := Unit) memResA 5 [0, 1, 2, 3]
        = outputPath memResB 5 [0, 1, 2, 3] :=
  ⟨rfl, rfl,
    outputPath_ignores_result_fields memResA memResB 5 [0, 1, 2, 3] rfl rfl⟩

/-- Claim C8: `parse_args` on any raw address, null included, returns
exactly the pair of one input view bound to that address and one output
sink, independently of the entire content of guest memory: it neither
reads, dereferences nor validates anything. -/
theorem parse_args_no_access (m₁ m₂ : Mem) (p : Nat) :
    (parse_argsT m₁ p).1 = (parse_argsT m₂ p).1 ∧
      (parse_argsT m₁ p).1.1.desc = p ∧
      (parse_argsT m₁ p).1.2 = WrappedResult.mk :=
  ⟨rfl, rfl, rfl⟩

/-- Claim C9: no operation of the layer mutates guest memory: parsing,
dereferencing the view, reading its bytes and finishing all leave the
descriptor record and the input region exactly as they were. -/
theorem layer_no_writes {α T : Type} (m : Mem) (p : Nat) (w : WrappedArgs)
    (s : Slice) (r : WrappedResult) (asRef : T → List Nat) (val : T) :
    (parse_argsT m p).2 = m ∧ (derefT m w).2 = m ∧ (readT m s).2 = m ∧
      (doneT (α := α) m r asRef val).2 = m :=
  ⟨rfl, rfl, rfl, rfl⟩

/-- Claim C10: the AsRef impl and the Deref impl of `WrappedArgs`
agree: on any view in any memory state they return the same slice,
hence the same byte sequence. -/
theorem wrappedArgs_as_ref_eq_deref (m : Mem) (w : WrappedArgs) :
    w.as_ref m = w.deref m ∧ (w.as_ref m).read m = (w.deref m).read m :=
  ⟨rfl, rfl⟩
